import Mathlib

/-!
Shallow embedding of the two Flask services of the Mate-Engine repository:
the Coqui TTS synthesis server (`TTSServer/tts_server.py`) and the Whisper
transcription server (`WhisperServer/whisper_server.py`).

Each HTTP handler is embedded as a pure Lean function.  Calls into external
libraries (the model inference calls, soundfile reads and writes, saving the
upload, loading a model) may raise exceptions in Python; their outcomes are
supplied by an explicit environment record whose fields have type
`Except String _`, where `Except.error e` stands for a raised exception whose
`str(e)` is `e`.  Handlers additionally return a trace of the side-effecting
steps they performed (temporary-file creation and deletion, model calls,
the time-stretch call, the format check), so that resource lifecycle and
operation ordering are provable properties of the embedding.
-/

namespace MateEngine

/-- Python `str.strip()` with no argument: remove leading and trailing
whitespace characters (whitespace modelled by `Char.isWhitespace`). -/
def pyStrip (s : String) : String :=
  ⟨((s.data.dropWhile Char.isWhitespace).reverse.dropWhile
      Char.isWhitespace).reverse⟩

/-- Python `str.lower()`: lowercase every character. -/
def pyLower (s : String) : String :=
  ⟨s.data.map Char.toLower⟩

namespace TTS

/-- JSON body of a POST /synthesize request, as the handler reads it:
`data['text']` (`none` when the key is absent), `data.get('response_format')`
and `data.get('speed')` (`none` when absent, triggering the Python defaults
`'wav'` and `1.0`).  Python floats are embedded as rationals. -/
structure SynthBody where
  text : Option String
  response_format : Option String
  speed : Option ℚ
deriving DecidableEq, Repr

/-- Outcomes of the external calls made by the synthesize handler:
`tts_model.tts_to_file`, `sf.read` (waveform samples and sample rate),
`librosa.effects.time_stretch` (a function of the waveform and the rate
argument), and `sf.write` into the in-memory buffer. -/
structure SynthEnv where
  ttsToFile : Except String Unit
  sfRead : Except String (List ℤ × ℕ)
  timeStretch : List ℤ → ℚ → Except String (List ℤ)
  sfWrite : Except String Unit

/-- Side-effecting steps of the synthesize handler, in execution order:
creating the temporary file, the model call writing into it, reading it
back, unlinking it, the time-stretch call, examining `response_format`,
and encoding the WAV into the in-memory buffer. -/
inductive SynthEv
  | createTmp
  | ttsCall
  | readAudio
  | unlinkTmp
  | stretchCall
  | formatCheck
  | encodeWav
deriving DecidableEq, Repr

/-- Responses of the synthesize handler: a JSON error body with a status
code, or a WAV file attachment (Flask `send_file` with status 200) carrying
the samples and the sample rate that were passed to `sf.write`. -/
inductive SynthResponse
  | err (status : ℕ) (msg : String)
  | wavFile (downloadName : String) (mimetype : String)
      (samples : List ℤ) (sampleRate : ℕ)
deriving DecidableEq, Repr

/-- HTTP status of a synthesize response (`send_file` yields 200). -/
def SynthResponse.status : SynthResponse → ℕ
  | .err s _ => s
  | .wavFile _ _ _ _ => 200

/-- Format-conversion tail of the synthesize handler
(`tts_server.py` lines 114-128): dispatch on `response_format.lower()`,
encode a WAV into an in-memory buffer and return it as the attachment
`speech.wav`, or reject any other format with a 400. -/
def formatStage (response_format : String) (audio : List ℤ) (sample_rate : ℕ)
    (tr : List SynthEv) (env : SynthEnv) : SynthResponse × List SynthEv :=
  if pyLower response_format = "wav" then
    match env.sfWrite with
    | .error e => (.err 500 ("Speech synthesis failed: " ++ e),
        tr ++ [.formatCheck])
    | .ok _ => (.wavFile "speech.wav" "audio/wav" audio sample_rate,
        tr ++ [.formatCheck, .encodeWav])
  else
    (.err 400 ("Unsupported format: " ++ response_format), tr ++ [.formatCheck])

/-- The POST /synthesize handler (`tts_server.py` lines 71-136).
`tts_model` is the process-wide model handle; `data` is `request.get_json()`
(`none` for an absent or empty body); `env` gives the outcomes of the
external calls.  Mirrors the source: model-loaded check, body and `text`
presence check, `text.strip()` emptiness check, then the processing block
that creates a temporary file, synthesizes into it, reads it back, unlinks
it, optionally time-stretches when `speed != 1.0`, and converts to the
requested format; exceptions in the processing block become a 500. -/
def synthesize (tts_model : Option String) (data : Option SynthBody)
    (env : SynthEnv) : SynthResponse × List SynthEv :=
  if tts_model.isNone then
    (.err 500 "TTS model not loaded", [])
  else
    match data with
    | none => (.err 400 "No text provided", [])
    | some d =>
      match d.text with
      | none => (.err 400 "No text provided", [])
      | some text =>
        if pyStrip text = "" then
          (.err 400 "Empty text provided", [])
        else
          let response_format := d.response_format.getD "wav"
          let speed := d.speed.getD 1
          match env.ttsToFile with
          | .error e => (.err 500 ("Speech synthesis failed: " ++ e),
              [.createTmp, .ttsCall])
          | .ok _ =>
            match env.sfRead with
            | .error e => (.err 500 ("Speech synthesis failed: " ++ e),
                [.createTmp, .ttsCall, .readAudio])
            | .ok (audio0, sample_rate) =>
              let tr : List SynthEv :=
                [.createTmp, .ttsCall, .readAudio, .unlinkTmp]
              if speed = 1 then
                formatStage response_format audio0 sample_rate tr env
              else
                match env.timeStretch audio0 speed with
                | .error e => (.err 500 ("Speech synthesis failed: " ++ e),
                    tr ++ [.stretchCall])
                | .ok audio1 =>
                    formatStage response_format audio1 sample_rate
                      (tr ++ [.stretchCall]) env

/-- The temporary file of a synthesize invocation remains on disk after the
handler returns: it was created and never unlinked. -/
def tmpRemains (tr : List SynthEv) : Bool :=
  tr.contains .createTmp && !(tr.contains .unlinkTmp)

/-- Body of the GET /health response of the TTS server. -/
structure TTSHealthBody where
  status : String
  model_loaded : Bool
  service : String
  cuda_available : Bool
deriving DecidableEq, Repr

/-- The GET /health handler of the TTS server (`tts_server.py` lines 61-69),
embedded with explicit state passing: it returns the (unchanged) model
handle together with the status code and JSON body. -/
def tts_health (tts_model : Option String) (cuda : Bool) :
    Option String × (ℕ × TTSHealthBody) :=
  (tts_model, (200, ⟨"healthy", tts_model.isSome, "coqui-tts", cuda⟩))

/-- Primary model name tried by the TTS loader. -/
def primaryModelName : String := "tts_models/en/ljspeech/tacotron2-DDC"

/-- Fallback model name tried by the TTS loader. -/
def fallbackModelName : String := "tts_models/en/ljspeech/glow-tts"

/-- Outcomes of the two `TTS(...)` constructor calls the loader may make:
the primary model and the fallback model.  `Except.error e` stands for a
raised exception. -/
structure TTSLoadEnv where
  primary : Except String String
  fallback : Except String String
deriving Repr

/-- The `load_tts_model` routine (`tts_server.py` lines 31-59): try the
primary model, on any exception try the fallback, on a second exception
report failure.  The result is the populated model handle, the boolean
result of the Python function, and the list of model names attempted; the
outer `Except` records whether the routine itself raises (it never does:
every exception is caught). -/
def load_tts_model (env : TTSLoadEnv) :
    Except String (Option String × Bool × List String) :=
  match env.primary with
  | .ok m => .ok (some m, true, [primaryModelName])
  | .error _ =>
    match env.fallback with
    | .ok m => .ok (some m, true, [primaryModelName, fallbackModelName])
    | .error _ => .ok (none, false, [primaryModelName, fallbackModelName])

/-- Terminal outcome of a service `main`: the process called `sys.exit`
with the given code before serving, or it reached `app.run` (the HTTP
listener) with the given model handle, or an exception escaped `main`. -/
inductive MainOutcome
  | exited (code : ℕ)
  | serving (model : Option String)
  | raised (msg : String)
deriving DecidableEq, Repr

/-- The TTS server `main` (`tts_server.py` lines 167-186) up to the point
where the HTTP listener starts: load the model, exit with status 1 when the
loader reports failure, otherwise start serving. -/
def tts_main (env : TTSLoadEnv) : MainOutcome :=
  match load_tts_model env with
  | .error e => .raised e
  | .ok (m, ok, _) => if ok then .serving m else .exited 1

end TTS

namespace Whisper

/-- An uploaded file part, as the handler inspects it (only the filename
is examined). -/
structure UploadedFile where
  filename : String
deriving DecidableEq, Repr

/-- Multipart form of a POST /transcribe request: `request.files['audio']`
(`none` when the part is absent) and the optional `response_format` form
field (`none` when absent, triggering the Python default `'json'`). -/
structure TransForm where
  files_audio : Option UploadedFile
  response_format : Option String
deriving DecidableEq, Repr

/-- Result dictionary of `model.transcribe`: the transcript under `text`
(read by direct indexing) and the optionally present `language`, `duration`
and `segments` keys, read with `.get` defaults.  Segments are opaque. -/
structure WhisperResult where
  text : String
  language : Option String
  duration : Option ℚ
  segments : Option (List String)

/-- Outcomes of the external calls made by the transcribe handler:
`audio_file.save` into the temporary file, and `model.transcribe`. -/
structure TransEnv where
  save : Except String Unit
  transcribeCall : Except String WhisperResult

/-- Side-effecting steps of the transcribe handler: creating the temporary
file, saving the upload into it, the model call, the success-path unlink
(`whisper_server.py` line 78), and the distinct error-path unlink inside the
`except` block (lines 95-96). -/
inductive TransEv
  | createTmp
  | saveUpload
  | modelCall
  | unlinkTmp
  | unlinkTmpOnError
deriving DecidableEq, Repr

/-- Responses of the transcribe handler: the structured JSON success body
(status 200), a plain-text body (status 200, `Content-Type: text/plain`),
or a JSON error body with a status code. -/
inductive TransResponse
  | jsonOk (text : String) (language : String) (duration : ℚ)
      (segments : List String)
  | plainText (body : String) (contentType : String)
  | err (status : ℕ) (msg : String)
deriving DecidableEq

/-- HTTP status of a transcribe response. -/
def TransResponse.status : TransResponse → ℕ
  | .jsonOk _ _ _ _ => 200
  | .plainText _ _ => 200
  | .err s _ => s

/-- The POST /transcribe handler (`whisper_server.py` lines 50-101).
`model` is the process-wide model handle; `req` is the multipart form;
`env` gives the outcomes of the external calls.  Mirrors the source:
model-loaded check, `audio` part presence check, empty-filename check,
then save the upload to a temporary file (a raised save lands in the outer
handler: 500, no cleanup), transcribe (a raised transcribe lands in the
inner handler: unlink the file, 500 with the message), and on success
unlink the file and shape the result by `response_format`. -/
def transcribe (model : Option String) (req : TransForm) (env : TransEnv) :
    TransResponse × List TransEv :=
  if model.isNone then
    (.err 500 "Model not loaded", [])
  else
    match req.files_audio with
    | none => (.err 400 "No audio file provided", [])
    | some audio_file =>
      if audio_file.filename = "" then
        (.err 400 "No audio file selected", [])
      else
        let response_format := req.response_format.getD "json"
        match env.save with
        | .error e => (.err 500 ("Request processing failed: " ++ e),
            [.createTmp, .saveUpload])
        | .ok _ =>
          match env.transcribeCall with
          | .error e => (.err 500 ("Transcription failed: " ++ e),
              [.createTmp, .saveUpload, .modelCall, .unlinkTmpOnError])
          | .ok result =>
            let tr : List TransEv :=
              [.createTmp, .saveUpload, .modelCall, .unlinkTmp]
            if response_format = "json" then
              (.jsonOk result.text (result.language.getD "en")
                (result.duration.getD 0) (result.segments.getD []), tr)
            else
              (.plainText result.text "text/plain", tr)

/-- The temporary file of a transcribe invocation remains on disk after the
handler returns: it was created and unlinked by neither the success-path
cleanup nor the error-path cleanup. -/
def transTmpRemains (tr : List TransEv) : Bool :=
  tr.contains .createTmp &&
    !(tr.contains .unlinkTmp || tr.contains .unlinkTmpOnError)

/-- Body of the GET /health response of the Whisper server. -/
structure WhisperHealthBody where
  status : String
  model_loaded : Bool
  service : String
deriving DecidableEq, Repr

/-- The GET /health handler of the Whisper server (`whisper_server.py`
lines 41-48), embedded with explicit state passing: it returns the
(unchanged) model handle together with the status code and JSON body. -/
def whisper_health (model : Option String) :
    Option String × (ℕ × WhisperHealthBody) :=
  (model, (200, ⟨"healthy", model.isSome, "whisper-stt"⟩))

/-- Outcome of the single `whisper.load_model` call the loader makes. -/
structure WhisperLoadEnv where
  load : Except String String
deriving Repr

/-- The `load_whisper_model` routine (`whisper_server.py` lines 29-39):
one load attempt, no fallback; any exception is caught and converted to a
boolean failure.  Result shape as in `TTS.load_tts_model`. -/
def load_whisper_model (model_name : String) (env : WhisperLoadEnv) :
    Except String (Option String × Bool × List String) :=
  match env.load with
  | .ok m => .ok (some m, true, [model_name])
  | .error _ => .ok (none, false, [model_name])

/-- The Whisper server `main` (`whisper_server.py` lines 116-136) up to the
point where the HTTP listener starts: load the model, exit with status 1
when the loader reports failure, otherwise start serving. -/
def whisper_main (model_name : String) (env : WhisperLoadEnv) :
    TTS.MainOutcome :=
  match load_whisper_model model_name env with
  | .error e => .raised e
  | .ok (m, ok, _) => if ok then .serving m else .exited 1

end Whisper

end MateEngine

open MateEngine

/-- Helper: the format-conversion tail only ever appends to the trace it is
given, so every event already in the trace is in the final trace. -/
theorem formatStage_mem (f : String) (a : List ℤ) (s : ℕ)
    (tr : List TTS.SynthEv) (env : TTS.SynthEnv) (e : TTS.SynthEv)
    (h : e ∈ tr) : e ∈ (TTS.formatStage f a s tr env).2 := by
  unfold TTS.formatStage
  split
  · cases henv : env.sfWrite <;> simp [h]
  · simp [h]

/-- C1: the spec claims the synthesize handler deletes its temporary audio
file on every exit path, but the code only unlinks after a successful
read-back.  Evaluating the handler at a request whose model file-synthesis
call raises: the handler returns a 500, yet the trace shows the temporary
file was created and never unlinked, so it remains on disk. -/
theorem c1_synthesize_temp_file_leaks_when_tts_call_raises :
    (TTS.synthesize (some "tacotron2") (some ⟨some "hello", none, none⟩)
        ⟨.error "cuda out of memory", .error "unused", fun a _ => .ok a,
          .ok ()⟩).1.status = 500
    ∧ TTS.tmpRemains
        (TTS.synthesize (some "tacotron2") (some ⟨some "hello", none, none⟩)
          ⟨.error "cuda out of memory", .error "unused", fun a _ => .ok a,
            .ok ()⟩).2 = true := by
  constructor
  · rfl
  · rfl

/-- C3: the synthesize handler validates in order — missing model gives a
500 whatever the body is; with a model, an absent body or a body without
`text` gives a 400 "No text provided"; with `text` present, a
whitespace-only value gives a 400 "Empty text provided"; all failures stop
before any processing step (empty trace); and a request passing all three
checks reaches the processing stage (the temporary file is created). -/
theorem c3_synthesize_validation_order
    (data : Option TTS.SynthBody) (env : TTS.SynthEnv) :
    TTS.synthesize none data env = (.err 500 "TTS model not loaded", [])
    ∧ (∀ m, TTS.synthesize (some m) none env
        = (.err 400 "No text provided", []))
    ∧ (∀ m d, d.text = none →
        TTS.synthesize (some m) (some d) env
          = (.err 400 "No text provided", []))
    ∧ (∀ m d t, d.text = some t → pyStrip t = "" →
        TTS.synthesize (some m) (some d) env
          = (.err 400 "Empty text provided", []))
    ∧ (∀ m d t, d.text = some t → pyStrip t ≠ "" →
        TTS.SynthEv.createTmp ∈ (TTS.synthesize (some m) (some d) env).2) := by
  refine ⟨rfl, fun m => rfl, ?_, ?_, ?_⟩
  · intro m d ht
    simp [TTS.synthesize, ht]
  · intro m d t ht htrim
    simp [TTS.synthesize, ht, htrim]
  · intro m d t ht htrim
    simp only [TTS.synthesize, ht, Option.isNone_some, Bool.false_eq_true,
      if_false, if_neg htrim]
    cases h1 : env.ttsToFile with
    | error e => simp
    | ok u =>
      cases h2 : env.sfRead with
      | error e => simp
      | ok pr =>
        obtain ⟨audio0, sample_rate⟩ := pr
        by_cases hs : d.speed.getD 1 = 1
        · simp only [hs, if_true]
          exact formatStage_mem _ _ _ _ _ _ (by simp)
        · simp only [hs, if_false]
          cases hst : env.timeStretch audio0 (d.speed.getD 1) with
          | error e => simp
          | ok audio1 => exact formatStage_mem _ _ _ _ _ _ (by simp)

/-- C6: the transcribe handler validates in order — missing model gives a
500 whatever the form is; with a model, a missing `audio` part gives a 400
"No audio file provided"; with the part present, an empty filename gives a
400 "No audio file selected"; all failures stop before any processing step
(empty trace); and a request passing all three checks reaches the
processing stage (the temporary file is created). -/
theorem c6_transcribe_validation_order
    (req : Whisper.TransForm) (env : Whisper.TransEnv) :
    Whisper.transcribe none req env = (.err 500 "Model not loaded", [])
    ∧ (∀ m, req.files_audio = none →
        Whisper.transcribe (some m) req env
          = (.err 400 "No audio file provided", []))
    ∧ (∀ m a, req.files_audio = some a → a.filename = "" →
        Whisper.transcribe (some m) req env
          = (.err 400 "No audio file selected", []))
    ∧ (∀ m a, req.files_audio = some a → a.filename ≠ "" →
        Whisper.TransEv.createTmp ∈ (Whisper.transcribe (some m) req env).2) := by
  refine ⟨rfl, ?_, ?_, ?_⟩
  · intro m ha
    simp [Whisper.transcribe, ha]
  · intro m a ha hn
    simp [Whisper.transcribe, ha, hn]
  · intro m a ha hn
    simp only [Whisper.transcribe, ha, Option.isNone_some, Bool.false_eq_true,
      if_false, if_neg hn]
    cases hs : env.save with
    | error e => simp
    | ok u =>
      cases ht : env.transcribeCall with
      | error e => simp
      | ok r =>
        by_cases hf : req.response_format.getD "json" = "json" <;> simp [hf]

/-- C7: both health handlers return status 200 with `model_loaded` true
exactly when the process-wide model handle is set, and leave the model
handle unchanged. -/
theorem c7_health_reports_load_status (m w : Option String) (cuda : Bool) :
    ((TTS.tts_health m cuda).2.1 = 200
      ∧ (TTS.tts_health m cuda).1 = m
      ∧ ((TTS.tts_health m cuda).2.2.model_loaded = true ↔ m ≠ none))
    ∧ ((Whisper.whisper_health w).2.1 = 200
      ∧ (Whisper.whisper_health w).1 = w
      ∧ ((Whisper.whisper_health w).2.2.model_loaded = true ↔ w ≠ none)) := by
  refine ⟨⟨rfl, rfl, ?_⟩, ⟨rfl, rfl, ?_⟩⟩ <;>
    simp [TTS.tts_health, Whisper.whisper_health, Option.isSome_iff_ne_none]

/-- C2: for every transcribe request that reaches the transcription stage
(model loaded, `audio` part present, filename non-empty, upload saved), the
temporary file never remains on disk: on success it is removed by the
success-path unlink, and when the model call raises it is removed by the
distinct error-path unlink and the handler returns a 500 whose body carries
the exception message. -/
theorem c2_transcribe_temp_file_always_deleted
    (m : String) (req : Whisper.TransForm) (a : Whisper.UploadedFile)
    (env : Whisper.TransEnv)
    (haud : req.files_audio = some a) (hname : a.filename ≠ "")
    (hsave : env.save = .ok ()) :
    Whisper.transTmpRemains (Whisper.transcribe (some m) req env).2 = false
    ∧ (∀ r, env.transcribeCall = .ok r →
        Whisper.TransEv.unlinkTmp ∈ (Whisper.transcribe (some m) req env).2)
    ∧ (∀ e, env.transcribeCall = .error e →
        Whisper.TransEv.unlinkTmpOnError ∈ (Whisper.transcribe (some m) req env).2
        ∧ (Whisper.transcribe (some m) req env).1
            = .err 500 ("Transcription failed: " ++ e)) := by
  simp only [Whisper.transcribe, haud, Option.isNone_some, Bool.false_eq_true,
    if_false, if_neg hname, hsave]
  cases ht : env.transcribeCall with
  | error e =>
    refine ⟨by simp [Whisper.transTmpRemains], fun r hr => by simp_all, ?_⟩
    intro e2 he2
    injection he2 with h
    subst h
    simp
  | ok r =>
    by_cases hf : req.response_format.getD "json" = "json" <;>
      refine ⟨by simp [Whisper.transTmpRemains, hf], fun r2 hr2 => by simp [hf],
        fun e2 he2 => by simp_all⟩

/-- C4 counterexample: `"WAV"` is a `response_format` value different from
`"wav"`, yet a synthesize request carrying it (with a loaded model, valid
text, and all external calls succeeding) returns status 200, not 400: the
code compares the lowercased value, so the claim "any other value causes a
400" fails at `"WAV"`. -/
theorem c4_uppercase_wav_counterexample :
    "WAV" ≠ "wav"
    ∧ (TTS.synthesize (some "tacotron2")
        (some ⟨some "hello", some "WAV", none⟩)
        ⟨.ok (), .ok ([0, 1], 22050), fun a _ => .ok a, .ok ()⟩).1.status
        = 200 := by
  constructor
  · decide
  · rfl

/-- C4 (amended): with a loaded model, valid non-empty text and successful
processing, the format dispatch is case-insensitive — a `response_format`
whose lowercased value is not `"wav"` gets a 400 naming the format, and one
whose lowercased value is `"wav"` gets the 200 WAV attachment named
`speech.wav`. -/
theorem c4_format_dispatch_lowercase_wav_only
    (m t : String) (d : TTS.SynthBody) (env : TTS.SynthEnv)
    (audio audio1 : List ℤ) (sr : ℕ)
    (ht : d.text = some t) (htrim : pyStrip t ≠ "")
    (h1 : env.ttsToFile = .ok ()) (h2 : env.sfRead = .ok (audio, sr))
    (hstretch : (d.speed.getD 1 = 1 ∧ audio1 = audio)
        ∨ (d.speed.getD 1 ≠ 1
            ∧ env.timeStretch audio (d.speed.getD 1) = .ok audio1))
    (hw : env.sfWrite = .ok ()) :
    (pyLower (d.response_format.getD "wav") ≠ "wav" →
      (TTS.synthesize (some m) (some d) env).1
        = .err 400 ("Unsupported format: " ++ d.response_format.getD "wav"))
    ∧ (pyLower (d.response_format.getD "wav") = "wav" →
      (TTS.synthesize (some m) (some d) env).1
        = .wavFile "speech.wav" "audio/wav" audio1 sr) := by
  simp only [TTS.synthesize, ht, Option.isNone_some, Bool.false_eq_true,
    if_false, if_neg htrim, h1, h2]
  rcases hstretch with ⟨hs, ha⟩ | ⟨hs, hst⟩
  · subst ha
    simp only [hs, if_true, TTS.formatStage, hw]
    constructor
    · intro hne
      rw [if_neg hne]
    · intro heq
      rw [if_pos heq]
  · simp only [if_neg hs, hst, TTS.formatStage, hw]
    constructor
    · intro hne
      rw [if_neg hne]
    · intro heq
      rw [if_pos heq]

/-- C5: for a successful transcription, the `json` response format (the
default when the form field is absent) yields the structured JSON object
with the transcript and the defaulted `language`, `duration` and `segments`
fields; any other format value yields the bare transcript with a plain-text
content type and status 200. -/
theorem c5_transcribe_result_shaping
    (m : String) (req : Whisper.TransForm) (a : Whisper.UploadedFile)
    (env : Whisper.TransEnv) (r : Whisper.WhisperResult)
    (haud : req.files_audio = some a) (hname : a.filename ≠ "")
    (hsave : env.save = .ok ()) (htr : env.transcribeCall = .ok r) :
    (req.response_format.getD "json" = "json" →
      (Whisper.transcribe (some m) req env).1
        = .jsonOk r.text (r.language.getD "en") (r.duration.getD 0)
            (r.segments.getD []))
    ∧ (req.response_format.getD "json" ≠ "json" →
      (Whisper.transcribe (some m) req env).1 = .plainText r.text "text/plain"
      ∧ (Whisper.transcribe (some m) req env).1.status = 200) := by
  simp only [Whisper.transcribe, haud, Option.isNone_some, Bool.false_eq_true,
    if_false, if_neg hname, hsave, htr]
  constructor
  · intro hf
    rw [if_pos hf]
  · intro hf
    rw [if_neg hf]
    exact ⟨rfl, rfl⟩

/-- C8: neither model loader propagates an exception (the result is always
`Except.ok`); when the TTS loader reports failure it has attempted the
primary model and exactly one fallback, while the Whisper loader attempts
exactly its one named model; and in both services `main` exits with status
code 1 (rather than reaching the HTTP listener) whenever the loader reports
failure. -/
theorem c8_model_load_failure_handling
    (tenv : TTS.TTSLoadEnv) (wname : String) (wenv : Whisper.WhisperLoadEnv) :
    (∃ r, TTS.load_tts_model tenv = .ok r)
    ∧ (∃ r, Whisper.load_whisper_model wname wenv = .ok r)
    ∧ (∀ h att, TTS.load_tts_model tenv = .ok (h, false, att) →
        att = [TTS.primaryModelName, TTS.fallbackModelName]
        ∧ TTS.tts_main tenv = .exited 1)
    ∧ (∀ h ok att, Whisper.load_whisper_model wname wenv = .ok (h, ok, att) →
        att = [wname])
    ∧ (∀ h att, Whisper.load_whisper_model wname wenv = .ok (h, false, att) →
        Whisper.whisper_main wname wenv = .exited 1) := by
  refine ⟨?_, ?_, ?_, ?_, ?_⟩
  · unfold TTS.load_tts_model
    cases tenv.primary with
    | ok m => exact ⟨_, rfl⟩
    | error e => cases tenv.fallback <;> exact ⟨_, rfl⟩
  · unfold Whisper.load_whisper_model
    cases wenv.load <;> exact ⟨_, rfl⟩
  · intro h att hload
    unfold TTS.load_tts_model at hload
    cases hp : tenv.primary with
    | ok m =>
      rw [hp] at hload
      simp at hload
    | error e =>
      rw [hp] at hload
      cases hf : tenv.fallback with
      | ok m2 =>
        rw [hf] at hload
        simp at hload
      | error e2 =>
        rw [hf] at hload
        injection hload with h1
        refine ⟨(congrArg (fun p => p.2.2) h1).symm, ?_⟩
        simp [TTS.tts_main, TTS.load_tts_model, hp, hf]
  · intro h ok att hload
    unfold Whisper.load_whisper_model at hload
    cases hl : wenv.load with
    | ok m =>
      rw [hl] at hload
      injection hload with h1
      exact (congrArg (fun p => p.2.2) h1).symm
    | error e =>
      rw [hl] at hload
      injection hload with h1
      exact (congrArg (fun p => p.2.2) h1).symm
  · intro h att hload
    unfold Whisper.load_whisper_model at hload
    cases hl : wenv.load with
    | ok m =>
      rw [hl] at hload
      simp at hload
    | error e =>
      simp [Whisper.whisper_main, Whisper.load_whisper_model, hl]

/-- C9: with a loaded model, valid text, successful external calls and a
supported format, the time-stretch call happens exactly when the `speed`
value (default 1 when the field is absent) differs from 1, the returned
samples are the stretched ones in that case and the read-back ones
otherwise, and in both cases the sample rate written into the returned WAV
is the one read back from the model's output file. -/
theorem c9_speed_stretch_only_affects_samples
    (m t : String) (d : TTS.SynthBody) (env : TTS.SynthEnv)
    (audio audio1 : List ℤ) (sr : ℕ)
    (ht : d.text = some t) (htrim : pyStrip t ≠ "")
    (h1 : env.ttsToFile = .ok ()) (h2 : env.sfRead = .ok (audio, sr))
    (hfmt : pyLower (d.response_format.getD "wav") = "wav")
    (hw : env.sfWrite = .ok ()) :
    (d.speed.getD 1 = 1 →
      (TTS.synthesize (some m) (some d) env).1
          = .wavFile "speech.wav" "audio/wav" audio sr
        ∧ TTS.SynthEv.stretchCall ∉ (TTS.synthesize (some m) (some d) env).2)
    ∧ (d.speed.getD 1 ≠ 1 →
        env.timeStretch audio (d.speed.getD 1) = .ok audio1 →
        (TTS.synthesize (some m) (some d) env).1
            = .wavFile "speech.wav" "audio/wav" audio1 sr
          ∧ TTS.SynthEv.stretchCall ∈ (TTS.synthesize (some m) (some d) env).2) := by
  simp only [TTS.synthesize, ht, Option.isNone_some, Bool.false_eq_true,
    if_false, if_neg htrim, h1, h2]
  constructor
  · intro hs
    simp only [hs, if_true, TTS.formatStage, if_pos hfmt, hw]
    constructor
    · simp
    · simp
  · intro hs hst
    simp only [if_neg hs, hst, TTS.formatStage, if_pos hfmt, hw]
    constructor
    · simp
    · simp

/-- C10: with a loaded model, valid text and successful processing calls,
an unsupported `response_format` is rejected with a 400 naming the format
only after the whole processing stage has run — the trace shows the
temporary file creation, the model call, the read-back, the unlink, and the
time-stretch when `speed` differs from 1, all strictly before the format
check, which is the final step. -/
theorem c10_unsupported_format_rejected_after_processing
    (m t fmt : String) (d : TTS.SynthBody) (env : TTS.SynthEnv)
    (audio : List ℤ) (sr : ℕ)
    (ht : d.text = some t) (htrim : pyStrip t ≠ "")
    (hfv : d.response_format = some fmt) (hfmt : pyLower fmt ≠ "wav")
    (h1 : env.ttsToFile = .ok ()) (h2 : env.sfRead = .ok (audio, sr))
    (hst : d.speed.getD 1 = 1
        ∨ ∃ a1, env.timeStretch audio (d.speed.getD 1) = .ok a1) :
    (TTS.synthesize (some m) (some d) env).1
        = .err 400 ("Unsupported format: " ++ fmt)
    ∧ (TTS.synthesize (some m) (some d) env).2
        = [TTS.SynthEv.createTmp, TTS.SynthEv.ttsCall, TTS.SynthEv.readAudio,
            TTS.SynthEv.unlinkTmp]
          ++ (if d.speed.getD 1 = 1 then [] else [TTS.SynthEv.stretchCall])
          ++ [TTS.SynthEv.formatCheck] := by
  simp only [TTS.synthesize, ht, hfv, Option.isNone_some, Bool.false_eq_true,
    if_false, if_neg htrim, h1, h2, Option.getD_some]
  by_cases hs : d.speed.getD 1 = 1
  · simp only [hs, if_true, TTS.formatStage, if_neg hfmt]
    constructor
    · simp
    · simp
  · rcases hst with hs2 | ⟨a1, hst2⟩
    · exact absurd hs2 hs
    · simp only [if_neg hs, hst2, TTS.formatStage, if_neg hfmt]
      constructor
      · simp
      · simp

/-- Witness for C2 at a concrete request: model "base", upload named
"clip.wav", save succeeds, the model call raises "bad audio": the file
does not remain and the 500 body carries the message. -/
theorem c2_transcribe_temp_file_always_deleted_witness :
    Whisper.transTmpRemains (Whisper.transcribe (some "base")
        ⟨some ⟨"clip.wav"⟩, none⟩ ⟨.ok (), .error "bad audio"⟩).2 = false
    ∧ (Whisper.transcribe (some "base") ⟨some ⟨"clip.wav"⟩, none⟩
        ⟨.ok (), .error "bad audio"⟩).1
        = .err 500 ("Transcription failed: " ++ "bad audio") :=
  ⟨(c2_transcribe_temp_file_always_deleted "base" ⟨some ⟨"clip.wav"⟩, none⟩
      ⟨"clip.wav"⟩ ⟨.ok (), .error "bad audio"⟩ rfl (by decide) rfl).1,
   ((c2_transcribe_temp_file_always_deleted "base" ⟨some ⟨"clip.wav"⟩, none⟩
      ⟨"clip.wav"⟩ ⟨.ok (), .error "bad audio"⟩ rfl (by decide) rfl).2.2
      "bad audio" rfl).2⟩

/-- Witness for C3 at concrete requests: a body without `text`, a
whitespace-only `text`, and a valid `text` that reaches processing. -/
theorem c3_synthesize_validation_order_witness :
    TTS.synthesize (some "m") (some ⟨none, none, none⟩)
        ⟨.ok (), .ok ([0], 8000), fun a _ => .ok a, .ok ()⟩
      = (.err 400 "No text provided", [])
    ∧ TTS.synthesize (some "m") (some ⟨some "   ", none, none⟩)
        ⟨.ok (), .ok ([0], 8000), fun a _ => .ok a, .ok ()⟩
      = (.err 400 "Empty text provided", [])
    ∧ TTS.SynthEv.createTmp ∈ (TTS.synthesize (some "m")
        (some ⟨some "hi", none, none⟩)
        ⟨.ok (), .ok ([0], 8000), fun a _ => .ok a, .ok ()⟩).2 :=
  ⟨(c3_synthesize_validation_order none
      ⟨.ok (), .ok ([0], 8000), fun a _ => .ok a, .ok ()⟩).2.2.1
      "m" ⟨none, none, none⟩ rfl,
   (c3_synthesize_validation_order none
      ⟨.ok (), .ok ([0], 8000), fun a _ => .ok a, .ok ()⟩).2.2.2.1
      "m" ⟨some "   ", none, none⟩ "   " rfl (by decide),
   (c3_synthesize_validation_order none
      ⟨.ok (), .ok ([0], 8000), fun a _ => .ok a, .ok ()⟩).2.2.2.2
      "m" ⟨some "hi", none, none⟩ "hi" rfl (by decide)⟩

/-- Witness for the amended C4 at concrete requests: format "mp3" is
rejected with a 400 naming it, format "WAV" gets the 200 attachment. -/
theorem c4_format_dispatch_lowercase_wav_only_witness :
    (TTS.synthesize (some "m") (some ⟨some "hello", some "mp3", none⟩)
        ⟨.ok (), .ok ([2, 3], 16000), fun a _ => .ok a, .ok ()⟩).1
      = .err 400 ("Unsupported format: " ++ "mp3")
    ∧ (TTS.synthesize (some "m") (some ⟨some "hello", some "WAV", none⟩)
        ⟨.ok (), .ok ([2, 3], 16000), fun a _ => .ok a, .ok ()⟩).1
      = .wavFile "speech.wav" "audio/wav" [2, 3] 16000 :=
  ⟨(c4_format_dispatch_lowercase_wav_only "m" "hello"
      ⟨some "hello", some "mp3", none⟩
      ⟨.ok (), .ok ([2, 3], 16000), fun a _ => .ok a, .ok ()⟩
      [2, 3] [2, 3] 16000 rfl (by decide) rfl rfl
      (Or.inl ⟨rfl, rfl⟩) rfl).1 (by decide),
   (c4_format_dispatch_lowercase_wav_only "m" "hello"
      ⟨some "hello", some "WAV", none⟩
      ⟨.ok (), .ok ([2, 3], 16000), fun a _ => .ok a, .ok ()⟩
      [2, 3] [2, 3] 16000 rfl (by decide) rfl rfl
      (Or.inl ⟨rfl, rfl⟩) rfl).2 (by decide)⟩

/-- Witness for C5 at concrete requests: the default format yields the
structured JSON object with defaulted fields, `response_format=text`
yields the bare transcript as plain text. -/
theorem c5_transcribe_result_shaping_witness :
    (Whisper.transcribe (some "base") ⟨some ⟨"clip.wav"⟩, none⟩
        ⟨.ok (), .ok ⟨"hello there", none, none, none⟩⟩).1
      = .jsonOk "hello there" "en" 0 []
    ∧ (Whisper.transcribe (some "base") ⟨some ⟨"clip.wav"⟩, some "text"⟩
        ⟨.ok (), .ok ⟨"hello there", none, none, none⟩⟩).1
      = .plainText "hello there" "text/plain" :=
  ⟨(c5_transcribe_result_shaping "base" ⟨some ⟨"clip.wav"⟩, none⟩
      ⟨"clip.wav"⟩ ⟨.ok (), .ok ⟨"hello there", none, none, none⟩⟩
      ⟨"hello there", none, none, none⟩ rfl (by decide) rfl rfl).1 rfl,
   ((c5_transcribe_result_shaping "base" ⟨some ⟨"clip.wav"⟩, some "text"⟩
      ⟨"clip.wav"⟩ ⟨.ok (), .ok ⟨"hello there", none, none, none⟩⟩
      ⟨"hello there", none, none, none⟩ rfl (by decide) rfl rfl).2
      (by decide)).1⟩

/-- Witness for C6 at concrete requests: missing `audio` part, empty
filename, and a valid upload that reaches processing. -/
theorem c6_transcribe_validation_order_witness :
    Whisper.transcribe (some "base") ⟨none, none⟩ ⟨.ok (), .error "x"⟩
      = (.err 400 "No audio file provided", [])
    ∧ Whisper.transcribe (some "base") ⟨some ⟨""⟩, none⟩ ⟨.ok (), .error "x"⟩
      = (.err 400 "No audio file selected", [])
    ∧ Whisper.TransEv.createTmp ∈ (Whisper.transcribe (some "base")
        ⟨some ⟨"clip.wav"⟩, none⟩ ⟨.ok (), .error "x"⟩).2 :=
  ⟨(c6_transcribe_validation_order ⟨none, none⟩ ⟨.ok (), .error "x"⟩).2.1
      "base" rfl,
   (c6_transcribe_validation_order ⟨some ⟨""⟩, none⟩
      ⟨.ok (), .error "x"⟩).2.2.1 "base" ⟨""⟩ rfl rfl,
   (c6_transcribe_validation_order ⟨some ⟨"clip.wav"⟩, none⟩
      ⟨.ok (), .error "x"⟩).2.2.2 "base" ⟨"clip.wav"⟩ rfl (by decide)⟩

/-- Witness for C8 at concrete environments where every load attempt
raises: both loaders return a boolean failure without raising, with the
expected attempt lists, and both `main`s exit with status code 1. -/
theorem c8_model_load_failure_handling_witness :
    TTS.load_tts_model ⟨.error "no cuda", .error "no net"⟩
      = .ok (none, false, [TTS.primaryModelName, TTS.fallbackModelName])
    ∧ TTS.tts_main ⟨.error "no cuda", .error "no net"⟩ = .exited 1
    ∧ Whisper.load_whisper_model "base" ⟨.error "no net"⟩
      = .ok (none, false, ["base"])
    ∧ Whisper.whisper_main "base" ⟨.error "no net"⟩ = .exited 1 :=
  ⟨rfl,
   ((c8_model_load_failure_handling ⟨.error "no cuda", .error "no net"⟩
      "base" ⟨.error "no net"⟩).2.2.1 none
      [TTS.primaryModelName, TTS.fallbackModelName] rfl).2,
   rfl,
   (c8_model_load_failure_handling ⟨.error "no cuda", .error "no net"⟩
      "base" ⟨.error "no net"⟩).2.2.2.2 none ["base"] rfl⟩

/-- Witness for C9 at concrete requests: default speed returns the
read-back samples unstretched, speed 2 returns the stretched samples, the
sample rate 22050 read from the file in both responses. -/
theorem c9_speed_stretch_only_affects_samples_witness :
    (TTS.synthesize (some "m") (some ⟨some "hello", none, none⟩)
        ⟨.ok (), .ok ([5, 6], 22050), fun a _ => .ok (a ++ a), .ok ()⟩).1
      = .wavFile "speech.wav" "audio/wav" [5, 6] 22050
    ∧ (TTS.synthesize (some "m") (some ⟨some "hello", none, some 2⟩)
        ⟨.ok (), .ok ([5, 6], 22050), fun a _ => .ok (a ++ a), .ok ()⟩).1
      = .wavFile "speech.wav" "audio/wav" [5, 6, 5, 6] 22050 :=
  ⟨((c9_speed_stretch_only_affects_samples "m" "hello"
      ⟨some "hello", none, none⟩
      ⟨.ok (), .ok ([5, 6], 22050), fun a _ => .ok (a ++ a), .ok ()⟩
      [5, 6] [] 22050 rfl (by decide) rfl rfl (by decide) rfl).1 rfl).1,
   ((c9_speed_stretch_only_affects_samples "m" "hello"
      ⟨some "hello", none, some 2⟩
      ⟨.ok (), .ok ([5, 6], 22050), fun a _ => .ok (a ++ a), .ok ()⟩
      [5, 6] [5, 6, 5, 6] 22050 rfl (by decide) rfl rfl (by decide) rfl).2
      (by decide) rfl).1⟩

/-- Witness for C10 at a concrete request: format "mp3" with default
speed — the 400 comes with the full processing trace before the format
check. -/
theorem c10_unsupported_format_rejected_after_processing_witness :
    (TTS.synthesize (some "m") (some ⟨some "hello", some "mp3", none⟩)
        ⟨.ok (), .ok ([7], 44100), fun a _ => .ok a, .ok ()⟩).1
      = .err 400 ("Unsupported format: " ++ "mp3")
    ∧ (TTS.synthesize (some "m") (some ⟨some "hello", some "mp3", none⟩)
        ⟨.ok (), .ok ([7], 44100), fun a _ => .ok a, .ok ()⟩).2
      = [TTS.SynthEv.createTmp, TTS.SynthEv.ttsCall, TTS.SynthEv.readAudio,
          TTS.SynthEv.unlinkTmp] ++ [] ++ [TTS.SynthEv.formatCheck] :=
  c10_unsupported_format_rejected_after_processing "m" "hello" "mp3"
    ⟨some "hello", some "mp3", none⟩
    ⟨.ok (), .ok ([7], 44100), fun a _ => .ok a, .ok ()⟩
    [7] 44100 rfl (by decide) rfl (by decide) rfl rfl (Or.inl rfl)
